import Mathlib

/-!
Verification of the query-resolution, caching, market-data and conversation-memory
core of the stock-assistant repository. The definitions below are a shallow
embedding of src/05_src/assignment-02/utils/api.py and utils/memory.py:
Python strings become Lean strings, JSON payloads become an inductive Json type,
the HTTP call becomes an explicit Fetch outcome parameter, time becomes a Nat
(seconds), and Python exceptions become Except values. Uncaught Python
exceptions surface as Except.error; caught ones are turned into the message
strings the source builds.
-/

/-! ### Python string primitives (ASCII, as used by the source data) -/

/-- Embeds Python str.lower for one character (ASCII range, which covers all
data in the source tables). -/
def pyLowerChar (c : Char) : Char :=
  if 65 ≤ c.toNat ∧ c.toNat ≤ 90 then Char.ofNat (c.toNat + 32) else c

/-- Embeds Python str.lower. -/
def pyLower (s : String) : String :=
  String.mk (s.toList.map pyLowerChar)

/-- Whitespace stripped by Python str.strip (ASCII subset). -/
def isPySpace (c : Char) : Bool :=
  c == ' ' || c == '\t' || c == '\n' || c == '\r' || c == '\x0b' || c == '\x0c'

/-- Embeds Python str.strip() with no arguments. -/
def pyStrip (s : String) : String :=
  String.mk (((s.toList.dropWhile isPySpace).reverse.dropWhile isPySpace).reverse)

/-- Contiguous-sublist test on character lists, used to embed the Python
substring operator `in`. -/
def listIn (pat hay : List Char) : Bool :=
  if pat.isPrefixOf hay then true
  else
    match hay with
    | [] => false
    | _ :: t => listIn pat t

/-- Embeds the Python substring test `pat in hay`. -/
def strIn (pat hay : String) : Bool :=
  listIn pat.toList hay.toList

/-- Embeds Python str.startswith. -/
def pyStartsWith (s pre : String) : Bool :=
  pre.toList.isPrefixOf s.toList

/-- Embeds Python `s.rstrip("%")`: drops every trailing percent sign. -/
def rstripPercent (s : String) : String :=
  String.mk ((s.toList.reverse.dropWhile (fun c => c == '%')).reverse)

/-! ### Decimal numbers: Python float() / format spec ".2f"

The source converts the quoted price with float() and renders it with the
format spec .2f. The embedding parses the decimal text exactly and rounds
half-to-even at two decimal places; the double rounding a binary float can
introduce on 3-or-more-decimal inputs is not modelled (no claim depends on
it), and neither are exponent/inf/nan spellings accepted by float(). -/

/-- A parsed decimal number: sign, mantissa digits, number of decimal places. -/
structure PyFloat where
  neg : Bool
  mant : Nat
  exp : Nat
deriving DecidableEq

/-- Digit list to Nat. -/
def digitsToNat (cs : List Char) : Nat :=
  cs.foldl (fun n c => 10 * n + (c.toNat - 48)) 0

/-- Embeds Python float(s) on plain decimal spellings; none is a ValueError. -/
def pyParseFloat (s : String) : Option PyFloat :=
  let cs := ((s.toList.dropWhile isPySpace).reverse.dropWhile isPySpace).reverse
  let signed : Bool × List Char :=
    match cs with
    | '-' :: t => (true, t)
    | '+' :: t => (false, t)
    | t => (false, t)
  let ip := signed.2.takeWhile Char.isDigit
  let rest := signed.2.dropWhile Char.isDigit
  match rest with
  | [] => if ip.isEmpty then none else some ⟨signed.1, digitsToNat ip, 0⟩
  | '.' :: fr =>
    if fr.all Char.isDigit && !(ip.isEmpty && fr.isEmpty) then
      some ⟨signed.1, digitsToNat (ip ++ fr), fr.length⟩
    else none
  | _ => none

/-- Embeds the format spec .2f applied to a parsed decimal: round half-to-even
to two decimal places and print with exactly two fraction digits. -/
def formatFloat2 (x : PyFloat) : String :=
  let m2 : Nat :=
    if x.exp ≤ 2 then x.mant * 10 ^ (2 - x.exp)
    else
      let d := 10 ^ (x.exp - 2)
      let q := x.mant / d
      let r := x.mant % d
      if 2 * r > d then q + 1
      else if 2 * r < d then q
      else if q % 2 = 0 then q else q + 1
  (if x.neg then "-" else "") ++ toString (m2 / 100) ++ "." ++
    (if m2 % 100 < 10 then "0" else "") ++ toString (m2 % 100)

/-! ### JSON values and the Python operations the source applies to them -/

/-- JSON payloads as returned by response.json(). Numbers keep their decimal
spelling. Objects keep field order; lookups take the first match (parsed
Python dicts have unique keys). -/
inductive Json where
  | null : Json
  | bool : Bool → Json
  | num : String → Json
  | str : String → Json
  | arr : List Json → Json
  | obj : List (String × Json) → Json

/-- Python exceptions that the source code can raise while handling a payload. -/
inductive PyExc where
  | keyError : String → PyExc
  | valueError : String → PyExc
  | typeError : String → PyExc
  | attributeError : String → PyExc
  | indexError : String → PyExc
deriving DecidableEq

/-- Embeds Python str(e) for the exceptions above. -/
def pyExcMsg : PyExc → String
  | .keyError k => "\x27" ++ k ++ "\x27"
  | .valueError m => m
  | .typeError m => m
  | .attributeError m => m
  | .indexError m => m

/-- First-match field lookup in a JSON object. -/
def fieldsLookup (fs : List (String × Json)) (k : String) : Option Json :=
  (fs.find? (fun f => f.1 == k)).map (fun f => f.2)

/-- Key membership in a JSON object. -/
def fieldsHasKey (fs : List (String × Json)) (k : String) : Bool :=
  fs.any (fun f => f.1 == k)

/-- Equality of a JSON value with a Python string, as used by `in` on lists. -/
def jsonIsStr (j : Json) (s : String) : Bool :=
  match j with
  | .str t => t == s
  | _ => false

/-- Python repr of a JSON value, used when a non-string value reaches an
f-string. Depth-one faithful for scalars; quote escaping inside nested
strings is not modelled (no claim depends on container rendering). -/
def jsonRepr : Json → String
  | .null => "None"
  | .bool true => "True"
  | .bool false => "False"
  | .num s => s
  | .str s => "\x27" ++ s ++ "\x27"
  | .arr xs =>
    "[" ++ String.intercalate ", " (xs.attach.map (fun x => jsonRepr x.1)) ++ "]"
  | .obj fs =>
    "\x7b" ++ String.intercalate ", "
      (fs.attach.map (fun f => "\x27" ++ f.1.1 ++ "\x27: " ++ jsonRepr f.1.2)) ++ "\x7d"
termination_by j => sizeOf j
decreasing_by
  · have := List.sizeOf_lt_of_mem x.2
    simp only [Json.arr.sizeOf_spec]
    omega
  · have h1 := List.sizeOf_lt_of_mem f.2
    have h2 : sizeOf f.1.2 < sizeOf f.1 := by
      obtain ⟨a, b⟩ := f.1
      simp
    simp only [Json.obj.sizeOf_spec]
    omega

/-- Embeds Python str(v) inside an f-string. -/
def pyStrRender (j : Json) : String :=
  match j with
  | .str s => s
  | j2 => jsonRepr j2

/-- Embeds the Python membership test `k in j`. -/
def pyIn (k : String) (j : Json) : Except PyExc Bool :=
  match j with
  | .obj fs => .ok (fieldsHasKey fs k)
  | .arr xs => .ok (xs.any (fun x => jsonIsStr x k))
  | .str s => .ok (strIn k s)
  | .num _ => .error (.typeError "argument of type \x27float\x27 is not iterable")
  | .bool _ => .error (.typeError "argument of type \x27bool\x27 is not iterable")
  | .null => .error (.typeError "argument of type \x27NoneType\x27 is not iterable")

/-- Embeds Python `j.get(k, default)` (a dict method only). -/
def pyGet (j : Json) (k : String) (default : Json) : Except PyExc Json :=
  match j with
  | .obj fs => .ok ((fieldsLookup fs k).getD default)
  | .arr _ => .error (.attributeError "\x27list\x27 object has no attribute \x27get\x27")
  | .str _ => .error (.attributeError "\x27str\x27 object has no attribute \x27get\x27")
  | .num _ => .error (.attributeError "\x27float\x27 object has no attribute \x27get\x27")
  | .bool _ => .error (.attributeError "\x27bool\x27 object has no attribute \x27get\x27")
  | .null => .error (.attributeError "\x27NoneType\x27 object has no attribute \x27get\x27")

/-- Embeds Python subscription `j[k]` with a string key. -/
def pyIndex (j : Json) (k : String) : Except PyExc Json :=
  match j with
  | .obj fs =>
    match fieldsLookup fs k with
    | some v => .ok v
    | none => .error (.keyError k)
  | .arr _ => .error (.typeError "list indices must be integers or slices, not str")
  | .str _ => .error (.typeError "string indices must be integers")
  | .num _ => .error (.typeError "\x27float\x27 object is not subscriptable")
  | .bool _ => .error (.typeError "\x27bool\x27 object is not subscriptable")
  | .null => .error (.typeError "\x27NoneType\x27 object is not subscriptable")

/-- Embeds Python truthiness of a JSON value. -/
def pyTruthy : Json → Bool
  | .null => false
  | .bool b => b
  | .num s =>
    match pyParseFloat s with
    | some f => f.mant != 0
    | none => true
  | .str s => s != ""
  | .arr xs => !xs.isEmpty
  | .obj fs => !fs.isEmpty

/-- Embeds Python `j.rstrip("%")` (a str method only). -/
def pyRstrip (j : Json) : Except PyExc String :=
  match j with
  | .str s => .ok (rstripPercent s)
  | .num _ => .error (.attributeError "\x27float\x27 object has no attribute \x27rstrip\x27")
  | .bool _ => .error (.attributeError "\x27bool\x27 object has no attribute \x27rstrip\x27")
  | .null => .error (.attributeError "\x27NoneType\x27 object has no attribute \x27rstrip\x27")
  | .arr _ => .error (.attributeError "\x27list\x27 object has no attribute \x27rstrip\x27")
  | .obj _ => .error (.attributeError "\x27dict\x27 object has no attribute \x27rstrip\x27")

/-- Embeds Python `list(j.keys())` (a dict method only). -/
def pyKeys (j : Json) : Except PyExc (List String) :=
  match j with
  | .obj fs => .ok (fs.map (fun f => f.1))
  | _ => .error (.attributeError "object has no attribute \x27keys\x27")

/-! ### Symbol resolver (api.py COMPANY_SYMBOLS and get-symbol helper) -/

/-- The static alias table of api.py, in source (dict insertion) order. -/
def COMPANY_SYMBOLS : List (String × String) := [
  ("microsoft", "MSFT"),
  ("apple", "AAPL"),
  ("google", "GOOGL"),
  ("alphabet", "GOOGL"),
  ("amazon", "AMZN"),
  ("meta", "META"),
  ("facebook", "META"),
  ("tesla", "TSLA"),
  ("nvidia", "NVDA"),
  ("intel", "INTC"),
  ("amd", "AMD"),
  ("ibm", "IBM"),
  ("jpmorgan", "JPM"),
  ("goldman", "GS"),
  ("morgan stanley", "MS"),
  ("bank of america", "BAC"),
  ("wells fargo", "WFC"),
  ("walmart", "WMT"),
  ("target", "TGT"),
  ("costco", "COST"),
  ("mcdonald", "MCD"),
  ("coca cola", "KO"),
  ("pepsi", "PEP"),
  ("exxon", "XOM"),
  ("chevron", "CVX"),
  ("shell", "SHEL"),
  ("pfizer", "PFE"),
  ("moderna", "MRNA"),
  ("johnson", "JNJ"),
  ("merck", "MRK"),
  ("at&t", "T"),
  ("verizon", "VZ")]

/-- The ticker values of the table in iteration order (Python dict .values()). -/
def tickerList : List String := COMPANY_SYMBOLS.map (fun p => p.2)

/-- Embeds api.py symbol lookup: reject empty input, normalize to lower case
and strip, pass 1 compares against every ticker case-insensitively, pass 2
returns the first alias contained in the normalized query as a substring. -/
def getSymbol (query : String) : Option String :=
  if query = "" then none
  else
    match tickerList.find? (fun t => pyLower t == pyStrip (pyLower query)) with
    | some t => some t
    | none =>
      match COMPANY_SYMBOLS.find? (fun p => strIn p.1 (pyStrip (pyLower query))) with
      | some p => some p.2
      | none => none

/-! ### TTL cache (api.py API_CALL_CACHE) -/

/-- Cache entries: key, cached string, store timestamp (seconds). -/
abbrev Cache := List (String × String × Nat)

/-- CACHE_DURATION = timedelta(minutes=60), in seconds. -/
def CACHE_DURATION : Nat := 3600

/-- Raw dict lookup: the stored (value, timestamp) pair, ignoring staleness. -/
def cacheLookup (c : Cache) (k : String) : Option (String × Nat) :=
  (c.find? (fun e => e.1 == k)).map (fun e => e.2)

/-- Embeds the cache read of get_stock_price: a hit only when the entry exists
and is younger than CACHE_DURATION; a stale entry is merely skipped. -/
def cacheGet (c : Cache) (k : String) (now : Nat) : Option String :=
  match cacheLookup c k with
  | none => none
  | some (v, t) => if now - t < CACHE_DURATION then some v else none

/-- Embeds the dict assignment API_CALL_CACHE[key] = (result, now): overwrite
any entry for the key. -/
def cachePut (c : Cache) (k v : String) (t : Nat) : Cache :=
  (k, v, t) :: c.filter (fun e => !(e.1 == k))

/-! ### Market data client (api.py get_stock_price, get_intraday_data) -/

/-- Outcome of requests.get + raise_for_status + response.json(), made an
explicit parameter: timeout (carrying str(e)), any other RequestException
(carrying str(e)), a JSON decode failure (a ValueError), or a decoded payload. -/
inductive Fetch where
  | timeout : String → Fetch
  | requestError : String → Fetch
  | jsonError : String → Fetch
  | ok : Json → Fetch

/-- Whether the ALPHAVANTAGE_API_KEY environment value is truthy. -/
def keyConfigured : Option String → Bool
  | none => false
  | some s => s != ""

def INVALID_QUERY_MSG : String :=
  "❌ Invalid query. Please provide a company name or stock ticker."

def KEY_NOT_CONFIGURED_MSG : String :=
  "⚠️ Alpha Vantage API key not configured. Please set ALPHAVANTAGE_API_KEY in .env"

def notFoundMsg (query : String) : String :=
  "❌ Could not identify stock for \x27" ++ query ++
    "\x27. Try: AAPL, MSFT, GOOGL, or company names like Apple, Microsoft"

def TIMEOUT_MSG : String :=
  "⏱️ Request timeout - Alpha Vantage server is slow, please try again."

def networkErrorMsg (e : String) : String := "❌ Network error: " ++ e

def parseErrorMsg (e : String) : String := "❌ Error parsing data: " ++ e

def apiErrorMsg (m : String) : String := "⚠️ API Error: " ++ m

def priceUnavailableMsg (symbol : String) : String :=
  "⚠️ Could not retrieve stock data for " ++ symbol ++ ". Please try again."

/-- Embeds Python float(x) applied to a JSON value. -/
def pyFloat (j : Json) : Except PyExc PyFloat :=
  match j with
  | .str s =>
    match pyParseFloat s with
    | some f => .ok f
    | none => .error (.valueError ("could not convert string to float: \x27" ++ s ++ "\x27"))
  | .num s =>
    match pyParseFloat s with
    | some f => .ok f
    | none => .error (.valueError ("could not convert string to float: \x27" ++ s ++ "\x27"))
  | .bool true => .ok ⟨false, 1, 0⟩
  | .bool false => .ok ⟨false, 0, 0⟩
  | .null => .error (.typeError "float() argument must be a string or a real number, not \x27NoneType\x27")
  | .arr _ => .error (.typeError "float() argument must be a string or a real number, not \x27list\x27")
  | .obj _ => .error (.typeError "float() argument must be a string or a real number, not \x27dict\x27")

/-- The f-string of get_stock_price: direction indicator chosen by whether the
stripped change-percent starts with a minus sign, then ticker, price at two
decimal places, raw change, stripped change-percent. -/
def formatResult (symbol : String) (price : PyFloat) (change cp : String) : String :=
  (if pyStartsWith cp "-" then "📉" else "📈") ++ " " ++ symbol ++
    " is trading at $" ++ formatFloat2 price ++ ", change: " ++ change ++
    " (" ++ cp ++ "%)"

/-- Result of the parsing section of the try block: either an early return
string (not cached) or the formatted result (cached by the caller). -/
inductive BodyRes where
  | early : String → BodyRes
  | success : String → BodyRes

/-- Embeds the body of the try block of get_stock_price after the response is
decoded: check for an error payload, extract the Global Quote object, require
a price field, convert the price with float(), default change and
change-percent to N/A, strip percent signs, format. Python exceptions
propagate as Except.error for the caller to catch or not. -/
def priceBody (symbol : String) (data : Json) : Except PyExc BodyRes :=
  match pyIn "Error Message" data with
  | .error e => .error e
  | .ok true =>
    match pyIndex data "Error Message" with
    | .error e => .error e
    | .ok em => .ok (.early (apiErrorMsg (pyStrRender em)))
  | .ok false =>
    match pyGet data "Global Quote" (Json.obj []) with
    | .error e => .error e
    | .ok quote =>
      if pyTruthy quote = false then .ok (.early (priceUnavailableMsg symbol))
      else
        match pyIn "05. price" quote with
        | .error e => .error e
        | .ok false => .ok (.early (priceUnavailableMsg symbol))
        | .ok true =>
          match pyIndex quote "05. price" with
          | .error e => .error e
          | .ok pj =>
            match pyFloat pj with
            | .error e => .error e
            | .ok price =>
              match pyGet quote "09. change" (Json.str "N/A") with
              | .error e => .error e
              | .ok changeJ =>
                match pyGet quote "10. change percent" (Json.str "N/A") with
                | .error e => .error e
                | .ok cpJ =>
                  match pyRstrip cpJ with
                  | .error e => .error e
                  | .ok cp =>
                    .ok (.success (formatResult symbol price (pyStrRender changeJ) cp))

/-- Embeds api.py get_stock_price. Checks in source order: empty query, API
key, cache (key from the lower-cased raw query), symbol resolution, then the
network outcome. The except clause of the source catches Timeout,
RequestException, KeyError and ValueError only; any other exception escapes
as Except.error. On success the formatted string is written through the cache. -/
def get_stock_price (query : String) (apiKey : Option String) (cache : Cache)
    (now : Nat) (fetch : Fetch) : Except PyExc (String × Cache) :=
  if query = "" then .ok (INVALID_QUERY_MSG, cache)
  else if keyConfigured apiKey = false then .ok (KEY_NOT_CONFIGURED_MSG, cache)
  else
    match cacheGet cache ("price_" ++ pyLower query) now with
    | some cached => .ok (cached, cache)
    | none =>
      match getSymbol query with
      | none => .ok (notFoundMsg query, cache)
      | some symbol =>
        match fetch with
        | .timeout _ => .ok (TIMEOUT_MSG, cache)
        | .requestError e => .ok (networkErrorMsg e, cache)
        | .jsonError e => .ok (parseErrorMsg e, cache)
        | .ok data =>
          match priceBody symbol data with
          | .ok (.early msg) => .ok (msg, cache)
          | .ok (.success result) =>
            .ok (result, cachePut cache ("price_" ++ pyLower query) result now)
          | .error (.keyError k) => .ok (parseErrorMsg (pyExcMsg (.keyError k)), cache)
          | .error (.valueError m) => .ok (parseErrorMsg m, cache)
          | .error e => .error e

/-! ### Intraday variant (api.py get_intraday_data) -/

def INTRADAY_INVALID_QUERY_MSG : String := "❌ Invalid query provided."

def INTRADAY_INVALID_INTERVAL_MSG : String :=
  "❌ Invalid interval. Choose from: 1min, 5min, 15min, 30min, 60min"

def INTRADAY_KEY_MSG : String := "⚠️ Alpha Vantage API key not configured."

def intradayNotFoundMsg (query : String) : String :=
  "❌ Could not identify stock for \x27" ++ query ++ "\x27."

def intradayUnavailableMsg (symbol : String) : String :=
  "⚠️ Could not retrieve intraday data for " ++ symbol ++ "."

def intradayErrorMsg (e : String) : String :=
  "❌ Error fetching intraday data: " ++ e

/-- The enumerated intervals accepted by get_intraday_data. -/
def INTRADAY_INTERVALS : List String := ["1min", "5min", "15min", "30min", "60min"]

/-- Embeds the try-block body of get_intraday_data: error payload check,
time-series presence, first time key, the five OHLCV fields, formatting. -/
def intradayBody (symbol interval : String) (data : Json) : Except PyExc String :=
  match pyIn "Error Message" data with
  | .error e => .error e
  | .ok true =>
    match pyIndex data "Error Message" with
    | .error e => .error e
    | .ok em => .ok (apiErrorMsg (pyStrRender em))
  | .ok false =>
    match pyIn ("Time Series (" ++ interval ++ ")") data with
    | .error e => .error e
    | .ok false => .ok (intradayUnavailableMsg symbol)
    | .ok true =>
      match pyIndex data ("Time Series (" ++ interval ++ ")") with
      | .error e => .error e
      | .ok ts =>
        match pyKeys ts with
        | .error e => .error e
        | .ok [] => .error (.indexError "list index out of range")
        | .ok (latest :: _) =>
          match pyIndex ts latest with
          | .error e => .error e
          | .ok ld =>
            match pyIndex ld "1. open" with
            | .error e => .error e
            | .ok o =>
              match pyIndex ld "2. high" with
              | .error e => .error e
              | .ok hi =>
                match pyIndex ld "3. low" with
                | .error e => .error e
                | .ok lo =>
                  match pyIndex ld "4. close" with
                  | .error e => .error e
                  | .ok cl =>
                    match pyIndex ld "5. volume" with
                    | .error e => .error e
                    | .ok vol =>
                      .ok ("📊 " ++ symbol ++ " Intraday (" ++ interval ++ ") - " ++
                        latest ++ ":\nOpen: $" ++ pyStrRender o ++
                        ", High: $" ++ pyStrRender hi ++
                        ", Low: $" ++ pyStrRender lo ++
                        ", Close: $" ++ pyStrRender cl ++
                        ", Volume: " ++ pyStrRender vol)

/-- Embeds api.py get_intraday_data. Checks in source order: empty query,
interval membership in the fixed set, API key, symbol resolution, then the
network outcome. The source wraps the try block in a bare except Exception,
so every exception becomes the error-fetching message. -/
def get_intraday_data (query interval : String) (apiKey : Option String)
    (fetch : Fetch) : String :=
  if query = "" then INTRADAY_INVALID_QUERY_MSG
  else if (INTRADAY_INTERVALS.contains interval) = false then INTRADAY_INVALID_INTERVAL_MSG
  else if keyConfigured apiKey = false then INTRADAY_KEY_MSG
  else
    match getSymbol query with
    | none => intradayNotFoundMsg query
    | some symbol =>
      match fetch with
      | .timeout e => intradayErrorMsg e
      | .requestError e => intradayErrorMsg e
      | .jsonError e => intradayErrorMsg e
      | .ok data =>
        match intradayBody symbol interval data with
        | .ok s => s
        | .error e => intradayErrorMsg (pyExcMsg e)

/-! ### Conversation memory (memory.py) -/

/-- memory.py MAX_MEMORY (the value is 10; a stale source comment says 5). -/
def MAX_MEMORY : Nat := 10

abbrev Memory := List (String × String)

/-- Embeds memory.py add_to_memory: both messages must be non-empty (checked
before stripping, else ValueError), the pair is stored stripped, then the
buffer is cut to the last MAX_MEMORY pairs when it exceeds that bound. -/
def add_to_memory (mem : Memory) (u b : String) : Except String Memory :=
  if u = "" then .error "user_message must be a non-empty string"
  else if b = "" then .error "bot_response must be a non-empty string"
  else if MAX_MEMORY < (mem ++ [(pyStrip u, pyStrip b)]).length then
    .ok ((mem ++ [(pyStrip u, pyStrip b)]).drop
      ((mem ++ [(pyStrip u, pyStrip b)]).length - MAX_MEMORY))
  else .ok (mem ++ [(pyStrip u, pyStrip b)])

/-- Runs a sequence of add_to_memory calls, stopping at the first ValueError. -/
def addAll (mem : Memory) : List (String × String) → Except String Memory
  | [] => .ok mem
  | p :: rest =>
    match add_to_memory mem p.1 p.2 with
    | .ok m2 => addAll m2 rest
    | .error e => .error e

/-- Embeds memory.py get_recent_memory. -/
def get_recent_memory (mem : Memory) : String :=
  if mem = [] then ""
  else
    String.intercalate "\n"
      ((mem.drop (mem.length - MAX_MEMORY)).map
        (fun p => "User: " ++ p.1 ++ "\nBot: " ++ p.2))

/-- The last n elements of a list, as Python l[-n:] produces for nonempty n. -/
def lastN (n : Nat) (l : List α) : List α := l.drop (l.length - n)

/-- The payload shapes for which the source returns the data-unavailable
message: the Global Quote object is absent (so the empty-dict default is
falsy) or is an object without a price field (empty, or the key missing). -/
def quoteMissingPrice (fs : List (String × Json)) : Bool :=
  match fieldsLookup fs "Global Quote" with
  | none => true
  | some (Json.obj qf) => !(fieldsHasKey qf "05. price")
  | some _ => false

/-! ### Theorems -/

/-- C6: for every non-empty query, when the credential is not configured,
get_stock_price returns the configuration-missing message verbatim and leaves
the cache untouched, for every cache state and every possible network outcome
(so no cache lookup, resolver lookup or network request can influence the
result: the credential check precedes them all). -/
theorem c6_missing_key (q : String) (key : Option String) (cache : Cache)
    (now : Nat) (fetch : Fetch) (hq : q ≠ "") (hk : keyConfigured key = false) :
    get_stock_price q key cache now fetch = .ok (KEY_NOT_CONFIGURED_MSG, cache) := by
  unfold get_stock_price
  rw [if_neg hq, if_pos hk]

/-- Witness for C6 at the spec scenario: query Apple, credential unset. -/
theorem c6_witness :
    get_stock_price "Apple" none [] 0 (.timeout "") = .ok (KEY_NOT_CONFIGURED_MSG, []) :=
  c6_missing_key "Apple" none [] 0 (.timeout "") (by decide) (by decide)

/-- C8 counterexample: the claim quantifies over every query, but for the
empty query and the invalid interval 2min the code returns the invalid-query
message, not the invalid-interval message. -/
theorem c8_counterexample :
    get_intraday_data "" "2min" none (.timeout "") = INTRADAY_INVALID_QUERY_MSG ∧
    INTRADAY_INVALID_QUERY_MSG ≠ INTRADAY_INVALID_INTERVAL_MSG :=
  ⟨rfl, by decide⟩

/-- C8 (amended): for every NON-EMPTY query and every interval outside the
enumerated set, get_intraday_data returns the invalid-interval message, for
every credential and network outcome (hence no resolution and no network
request can influence the result). -/
theorem c8_invalid_interval (q interval : String) (key : Option String)
    (fetch : Fetch) (hq : q ≠ "")
    (hi : INTRADAY_INTERVALS.contains interval = false) :
    get_intraday_data q interval key fetch = INTRADAY_INVALID_INTERVAL_MSG := by
  unfold get_intraday_data
  rw [if_neg hq, hi, if_pos rfl]

/-- Witness for C8 at the spec scenario: interval 2min. -/
theorem c8_witness :
    get_intraday_data "AAPL" "2min" none (.timeout "") = INTRADAY_INVALID_INTERVAL_MSG :=
  c8_invalid_interval "AAPL" "2min" none (.timeout "") (by decide) (by decide)

/-- C3: after a put of (k, v) at time t, a read at time now hits with exactly
v when now - t is under the 60-minute TTL and misses at or past it; the raw
entry survives a stale read untouched (first two conjuncts), and a full
get_stock_price call that finds its cached entry stale proceeds without
deleting it: the cache it returns is the unchanged input cache (third
conjunct, stated for a timed-out refetch so no new entry is written). -/
theorem c3_cache_ttl (c : Cache) (k v : String) (t now : Nat) (q : String)
    (key : Option String) :
    (cacheGet (cachePut c k v t) k now =
      if now - t < CACHE_DURATION then some v else none) ∧
    cacheLookup (cachePut c k v t) k = some (v, t) ∧
    (q ≠ "" → keyConfigured key = true → CACHE_DURATION ≤ now - t →
      ∃ m, get_stock_price q key (cachePut c ("price_" ++ pyLower q) v t) now
        (.timeout "") = .ok (m, cachePut c ("price_" ++ pyLower q) v t)) := by
  have hlook : ∀ k2 : String, cacheLookup (cachePut c k2 v t) k2 = some (v, t) := by
    intro k2
    simp [cacheLookup, cachePut, List.find?_cons]
  refine ⟨?_, hlook k, ?_⟩
  · unfold cacheGet
    rw [hlook k]
  · intro hq hk hstale
    have hmiss : cacheGet (cachePut c ("price_" ++ pyLower q) v t)
        ("price_" ++ pyLower q) now = none := by
      simp only [cacheGet, hlook ("price_" ++ pyLower q)]
      rw [if_neg (by omega)]
    unfold get_stock_price
    rw [if_neg hq, if_neg (by simp [hk])]
    simp only [hmiss]
    cases hsym : getSymbol q with
    | none => exact ⟨notFoundMsg q, rfl⟩
    | some symbol => exact ⟨TIMEOUT_MSG, rfl⟩

/-- Witness for C3 at a concrete stale read: entry stored at t = 0, read at
now = 3600 (exactly the TTL). -/
theorem c3_witness :
    (cacheGet (cachePut [] "k" "v" 0) "k" 3600 =
      if 3600 - 0 < CACHE_DURATION then some "v" else none) ∧
    cacheLookup (cachePut [] "k" "v" 0) "k" = some ("v", 0) ∧
    (∃ m, get_stock_price "AAPL" (some "x")
        (cachePut [] ("price_" ++ pyLower "AAPL") "v" 0) 3600 (.timeout "") =
      .ok (m, cachePut [] ("price_" ++ pyLower "AAPL") "v" 0)) := by
  have h := c3_cache_ttl [] "k" "v" 0 3600 "AAPL" (some "x")
  exact ⟨h.1, h.2.1, h.2.2 (by decide) (by decide) (by decide)⟩

/-- C10: add_to_memory signals its ValueError exactly when one of the two
messages is the empty string (None and non-string arguments have no
counterpart in the embedding, where both arguments are strings); a non-empty
message passes even if whitespace-only, and the stored pair is the stripped
text, so stored components can be empty. -/
theorem c10_append_validation (mem : Memory) (u b : String) :
    ((∃ e, add_to_memory mem u b = .error e) ↔ u = "" ∨ b = "") ∧
    (u ≠ "" → b ≠ "" → mem.length < MAX_MEMORY →
      add_to_memory mem u b = .ok (mem ++ [(pyStrip u, pyStrip b)])) := by
  constructor
  · constructor
    · rintro ⟨e, he⟩
      by_cases hu : u = ""
      · exact Or.inl hu
      by_cases hb : b = ""
      · exact Or.inr hb
      unfold add_to_memory at he
      rw [if_neg hu, if_neg hb] at he
      split at he <;> simp at he
    · intro h
      by_cases hu : u = ""
      · exact ⟨_, by unfold add_to_memory; rw [if_pos hu]⟩
      · have hb : b = "" := h.resolve_left hu
        exact ⟨_, by unfold add_to_memory; rw [if_neg hu, if_pos hb]⟩
  · intro hu hb hlen
    unfold add_to_memory
    rw [if_neg hu, if_neg hb]
    have hno : ¬ MAX_MEMORY < (mem ++ [(pyStrip u, pyStrip b)]).length := by
      simp only [List.length_append, List.length_cons, List.length_nil, MAX_MEMORY]
      simp only [MAX_MEMORY] at hlen
      omega
    rw [if_neg hno]

/-- Witness for C10: a whitespace-only user message passes validation and is
stored as the empty string. -/
theorem c10_witness :
    add_to_memory [] "   " "hi" = .ok [("", "hi")] := by
  have h := (c10_append_validation [] "   " "hi").2 (by decide) (by decide) (by decide)
  exact h.trans (by rfl)

/-- Facts about the ticker values checked by computation: no ticker lowers to
the empty string, lower-cased tickers are strip-invariant, and the pass-1 scan
for a lower-cased ticker finds that very ticker first. -/
theorem ticker_facts :
    ∀ t ∈ tickerList, pyLower t ≠ "" ∧ pyStrip (pyLower t) = pyLower t ∧
      tickerList.find? (fun t2 => pyLower t2 == pyLower t) = some t := by
  set_option maxRecDepth 10000 in decide

/-- C4: every alias of the static table resolves to its own ticker, and every
ticker value resolves to itself under any letter casing (any query whose
lower-casing agrees with the lower-cased ticker). -/
theorem c4_resolver_roundtrip :
    (∀ p ∈ COMPANY_SYMBOLS, getSymbol p.1 = some p.2) ∧
    (∀ t ∈ tickerList, ∀ q : String, pyLower q = pyLower t → getSymbol q = some t) := by
  constructor
  · set_option maxRecDepth 10000 in decide
  · intro t ht q hq
    obtain ⟨hne, hstrip, hfind⟩ := ticker_facts t ht
    have hqne : q ≠ "" := by
      intro h
      subst h
      exact hne (hq.symm.trans rfl)
    unfold getSymbol
    rw [if_neg hqne, hq, hstrip, hfind]

/-- Witness for C4: the alias apple and the mixed-case ticker MsFt. -/
theorem c4_witness :
    getSymbol "apple" = some "AAPL" ∧ getSymbol "MsFt" = some "MSFT" := by
  constructor
  · exact c4_resolver_roundtrip.1 ("apple", "AAPL") (by decide)
  · exact c4_resolver_roundtrip.2 "MSFT" (by decide) "MsFt" (by decide)

/-- C5: for a non-empty query whose normalized form matches no ticker
case-insensitively, the resolver returns exactly the ticker of the first
alias (in table order) whose text is a substring of the normalized query,
and none only when no alias is contained. -/
theorem c5_alias_containment (q : String) (hq : q ≠ "")
    (hnt : ∀ t ∈ tickerList, pyLower t ≠ pyStrip (pyLower q)) :
    getSymbol q =
      (COMPANY_SYMBOLS.find? (fun p => strIn p.1 (pyStrip (pyLower q)))).map
        (fun p => p.2) := by
  unfold getSymbol
  rw [if_neg hq]
  have h1 : tickerList.find? (fun t => pyLower t == pyStrip (pyLower q)) = none := by
    rw [List.find?_eq_none]
    intro x hx
    simp only [beq_iff_eq]
    exact hnt x hx
  rw [h1]
  cases h2 : COMPANY_SYMBOLS.find? (fun p => strIn p.1 (pyStrip (pyLower q))) with
  | none => rfl
  | some p => rfl

/-- Witness for C5: a free-text query containing the alias tesla. -/
theorem c5_witness :
    getSymbol "i love tesla stock" =
      (COMPANY_SYMBOLS.find?
        (fun p => strIn p.1 (pyStrip (pyLower "i love tesla stock")))).map
        (fun p => p.2) ∧
    getSymbol "i love tesla stock" = some "TSLA" := by
  have h := c5_alias_containment "i love tesla stock" (by decide)
    (by set_option maxRecDepth 10000 in decide)
  exact ⟨h, h.trans (by rfl)⟩

/-- lastN keeps a short list whole. -/
theorem lastN_of_le {α : Type} (n : Nat) (l : List α) (h : l.length ≤ n) :
    lastN n l = l := by
  unfold lastN
  rw [Nat.sub_eq_zero_of_le h, List.drop_zero]

/-- lastN never returns more than n elements. -/
theorem length_lastN_le {α : Type} (n : Nat) (l : List α) :
    (lastN n l).length ≤ n := by
  unfold lastN
  rw [List.length_drop]
  omega

/-- Taking the last n elements, appending, and taking the last n again is the
same as taking the last n of the full concatenation. -/
theorem lastN_lastN_append {α : Type} (n : Nat) (a c : List α) :
    lastN n (lastN n a ++ c) = lastN n (a ++ c) := by
  rcases Nat.lt_or_ge a.length n with h | h
  · rw [lastN_of_le n a (Nat.le_of_lt h)]
  · have hn : n ≤ a.length := h
    unfold lastN
    rw [List.length_append, List.length_append, List.length_drop]
    have e1 : a.length - (a.length - n) + c.length - n = c.length := by omega
    rw [e1]
    rw [List.drop_append_eq_append_drop, List.drop_append_eq_append_drop,
        List.drop_drop, List.length_drop]
    have e2 : a.length - n + c.length = a.length + c.length - n := by omega
    have e3 : c.length - (a.length - (a.length - n)) =
        a.length + c.length - n - a.length := by omega
    rw [e2, e3]

/-- Running a sequence of valid appends from any starting buffer yields
exactly the last MAX_MEMORY stored (stripped) pairs of the concatenation. -/
theorem addAll_ok (ps : List (String × String)) :
    ∀ m : Memory, (∀ p ∈ ps, p.1 ≠ "" ∧ p.2 ≠ "") → m.length ≤ MAX_MEMORY →
      addAll m ps =
        .ok (lastN MAX_MEMORY (m ++ ps.map (fun p => (pyStrip p.1, pyStrip p.2)))) := by
  induction ps with
  | nil =>
    intro m _ hm
    rw [List.map_nil, List.append_nil, lastN_of_le _ _ hm]
    rfl
  | cons p rest ih =>
    intro m hv hm
    have hp := hv p (List.mem_cons_self p rest)
    have hrest : ∀ x ∈ rest, x.1 ≠ "" ∧ x.2 ≠ "" :=
      fun x hx => hv x (List.mem_cons_of_mem p hx)
    have hstep : add_to_memory m p.1 p.2 =
        .ok (lastN MAX_MEMORY (m ++ [(pyStrip p.1, pyStrip p.2)])) := by
      unfold add_to_memory
      rw [if_neg hp.1, if_neg hp.2]
      by_cases hlen : MAX_MEMORY < (m ++ [(pyStrip p.1, pyStrip p.2)]).length
      · rw [if_pos hlen]
        rfl
      · rw [if_neg hlen, lastN_of_le _ _ (Nat.le_of_not_lt hlen)]
    show (match add_to_memory m p.1 p.2 with
      | .ok m2 => addAll m2 rest
      | .error e => .error e) = _
    rw [hstep]
    show addAll (lastN MAX_MEMORY (m ++ [(pyStrip p.1, pyStrip p.2)])) rest = _
    rw [ih _ hrest (length_lastN_le _ _)]
    rw [lastN_lastN_append, List.append_assoc]
    rfl

/-- C9: starting from the empty buffer, any sequence of valid appends leaves
exactly the last MAX_MEMORY (= 10) stored pairs in their original relative
order (oldest dropped first), and in particular the buffer length never
exceeds MAX_MEMORY. -/
theorem c9_memory_bound (ps : List (String × String))
    (hv : ∀ p ∈ ps, p.1 ≠ "" ∧ p.2 ≠ "") :
    addAll [] ps =
      .ok (lastN MAX_MEMORY (ps.map (fun p => (pyStrip p.1, pyStrip p.2)))) ∧
    ∀ res, addAll [] ps = .ok res → res.length ≤ MAX_MEMORY := by
  have h := addAll_ok ps [] hv (by simp)
  rw [List.nil_append] at h
  refine ⟨h, ?_⟩
  intro res hres
  rw [h] at hres
  cases hres
  exact length_lastN_le _ _

/-- Witness for C9: appending MAX_MEMORY + 3 = 13 pairs retains exactly the
last 10, in order. -/
theorem c9_witness :
    addAll [] [("u1", "b1"), ("u2", "b2"), ("u3", "b3"), ("u4", "b4"),
      ("u5", "b5"), ("u6", "b6"), ("u7", "b7"), ("u8", "b8"), ("u9", "b9"),
      ("u10", "b10"), ("u11", "b11"), ("u12", "b12"), ("u13", "b13")] =
      .ok [("u4", "b4"), ("u5", "b5"), ("u6", "b6"), ("u7", "b7"),
        ("u8", "b8"), ("u9", "b9"), ("u10", "b10"), ("u11", "b11"),
        ("u12", "b12"), ("u13", "b13")] ∧
    ([("u4", "b4"), ("u5", "b5"), ("u6", "b6"), ("u7", "b7"), ("u8", "b8"),
      ("u9", "b9"), ("u10", "b10"), ("u11", "b11"), ("u12", "b12"),
      ("u13", "b13")] : Memory).length ≤ MAX_MEMORY := by
  have h := c9_memory_bound [("u1", "b1"), ("u2", "b2"), ("u3", "b3"),
    ("u4", "b4"), ("u5", "b5"), ("u6", "b6"), ("u7", "b7"), ("u8", "b8"),
    ("u9", "b9"), ("u10", "b10"), ("u11", "b11"), ("u12", "b12"),
    ("u13", "b13")] (by decide)
  have he := h.1.trans (by rfl)
  exact ⟨he, h.2 _ he⟩

/-- A successful object lookup implies key membership. -/
theorem fieldsHasKey_of_lookup {fs : List (String × Json)} {k : String}
    {v : Json} (h : fieldsLookup fs k = some v) : fieldsHasKey fs k = true := by
  unfold fieldsLookup at h
  cases hf : fs.find? (fun f => f.1 == k) with
  | none => rw [hf] at h; simp at h
  | some f =>
    have hmem : f ∈ fs := List.mem_of_find?_eq_some hf
    have hp : (fun g => g.1 == k) f = true := @List.find?_some _ _ f fs hf
    exact List.any_eq_true.mpr ⟨f, hmem, hp⟩

/-- A successful object lookup implies the object is non-empty (truthy). -/
theorem fields_not_nil_of_lookup {fs : List (String × Json)} {k : String}
    {v : Json} (h : fieldsLookup fs k = some v) : fs.isEmpty = false := by
  cases fs with
  | nil => simp [fieldsLookup] at h
  | cons f t => rfl

/-- On a payload with no error message and a Global Quote object carrying
string price, change and change-percent fields with a parseable price, the
try-block body reaches the formatting step and produces the formatted string. -/
theorem priceBody_success (symbol : String) (fs qf : List (String × Json))
    (p c s : String) (x : PyFloat)
    (hne : fieldsHasKey fs "Error Message" = false)
    (hGQ : fieldsLookup fs "Global Quote" = some (Json.obj qf))
    (hPrice : fieldsLookup qf "05. price" = some (Json.str p))
    (hParse : pyParseFloat p = some x)
    (hChange : fieldsLookup qf "09. change" = some (Json.str c))
    (hCP : fieldsLookup qf "10. change percent" = some (Json.str s)) :
    priceBody symbol (Json.obj fs) =
      .ok (.success (formatResult symbol x c (rstripPercent s))) := by
  have hqne : qf.isEmpty = false := fields_not_nil_of_lookup hPrice
  have hhk : fieldsHasKey qf "05. price" = true := fieldsHasKey_of_lookup hPrice
  unfold priceBody
  simp only [pyIn, pyGet, pyIndex, pyTruthy, pyFloat, pyRstrip, pyStrRender,
    hne, hGQ, hPrice, hParse, hChange, hCP, hqne, hhk, Option.getD_some,
    Bool.not_false, Bool.true_eq_false, if_false]

/-- C1: for every query that passes validation (non-empty, credential
configured), misses the cache, resolves to ticker T, and receives a
well-formed successful quote (no error message; a Global Quote object with
string price, change and change-percent fields, the price parseable), the
result is the formatted string - direction indicator chosen by whether the
percent-stripped change-percent starts with a minus sign, ticker, price at
two decimal places, raw change, stripped change-percent - and that exact
string is written through the cache under key price_ plus the lower-cased
raw query. -/
theorem c1_fetch_price_format (q : String) (key : Option String)
    (cache : Cache) (now : Nat) (T : String) (fs qf : List (String × Json))
    (p c s : String) (x : PyFloat)
    (hq : q ≠ "") (hk : keyConfigured key = true)
    (hc : cacheGet cache ("price_" ++ pyLower q) now = none)
    (hsym : getSymbol q = some T)
    (hne : fieldsHasKey fs "Error Message" = false)
    (hGQ : fieldsLookup fs "Global Quote" = some (Json.obj qf))
    (hPrice : fieldsLookup qf "05. price" = some (Json.str p))
    (hParse : pyParseFloat p = some x)
    (hChange : fieldsLookup qf "09. change" = some (Json.str c))
    (hCP : fieldsLookup qf "10. change percent" = some (Json.str s)) :
    get_stock_price q key cache now (.ok (Json.obj fs)) =
      .ok (formatResult T x c (rstripPercent s),
        cachePut cache ("price_" ++ pyLower q)
          (formatResult T x c (rstripPercent s)) now) := by
  have hbody := priceBody_success T fs qf p c s x hne hGQ hPrice hParse hChange hCP
  unfold get_stock_price
  rw [if_neg hq, if_neg (by simp [hk])]
  simp only [hc, hsym, hbody]

/-- Witness for C1 at the spec scenario: query AAPL, price 150.25, change
1.20, change-percent 0.80%, cached under price_aapl. -/
theorem c1_witness :
    get_stock_price "AAPL" (some "demo") [] 0
      (.ok (Json.obj [("Global Quote", Json.obj
        [("05. price", Json.str "150.25"), ("09. change", Json.str "1.20"),
         ("10. change percent", Json.str "0.80%")])])) =
      .ok ("📈 AAPL is trading at $150.25, change: 1.20 (0.80%)",
        [("price_aapl", "📈 AAPL is trading at $150.25, change: 1.20 (0.80%)", 0)]) := by
  have h := c1_fetch_price_format "AAPL" (some "demo") [] 0 "AAPL"
    [("Global Quote", Json.obj
      [("05. price", Json.str "150.25"), ("09. change", Json.str "1.20"),
       ("10. change percent", Json.str "0.80%")])]
    [("05. price", Json.str "150.25"), ("09. change", Json.str "1.20"),
     ("10. change percent", Json.str "0.80%")]
    "150.25" "1.20" "0.80%" ⟨false, 15025, 2⟩
    (by decide) (by rfl) (by rfl) (by rfl) (by rfl) (by rfl) (by rfl)
    (by rfl) (by rfl) (by rfl)
  exact h.trans (by rfl)

/-- C7 counterexample: a successful, well-formed response whose quote carries
the price but neither change field. The claim says any absent required field
(price, change, change-percent) yields the data-unavailable message, but the
code substitutes N/A for absent change fields and returns (and caches) a
formatted price string instead. -/
theorem c7_counterexample :
    get_stock_price "AAPL" (some "key") [] 0
      (.ok (Json.obj [("Global Quote",
        Json.obj [("05. price", Json.str "150.25")])])) =
      .ok ("📈 AAPL is trading at $150.25, change: N/A (N/A%)",
        [("price_aapl", "📈 AAPL is trading at $150.25, change: N/A (N/A%)", 0)]) ∧
    "📈 AAPL is trading at $150.25, change: N/A (N/A%)" ≠
      priceUnavailableMsg "AAPL" := by
  exact ⟨rfl, by decide⟩

/-- C7 (amended): the data-unavailable message naming the resolved ticker is
returned exactly on the payload shapes of quoteMissingPrice - the Global
Quote object absent, empty, or lacking the price key; absent change or
change-percent fields alone do not trigger it. -/
theorem c7_missing_price_unavailable (q : String) (key : Option String)
    (cache : Cache) (now : Nat) (T : String) (fs : List (String × Json))
    (hq : q ≠ "") (hk : keyConfigured key = true)
    (hc : cacheGet cache ("price_" ++ pyLower q) now = none)
    (hsym : getSymbol q = some T)
    (hne : fieldsHasKey fs "Error Message" = false)
    (hmiss : quoteMissingPrice fs = true) :
    get_stock_price q key cache now (.ok (Json.obj fs)) =
      .ok (priceUnavailableMsg T, cache) := by
  have hbody : priceBody T (Json.obj fs) = .ok (.early (priceUnavailableMsg T)) := by
    unfold quoteMissingPrice at hmiss
    unfold priceBody
    simp only [pyIn, hne]
    cases hGQ : fieldsLookup fs "Global Quote" with
    | none =>
      rw [hGQ] at hmiss
      simp only [pyGet, hGQ, Option.getD_none, pyTruthy]
      rfl
    | some quote =>
      rw [hGQ] at hmiss
      cases quote with
      | obj qf =>
        simp only [Bool.not_eq_true'] at hmiss
        simp only [pyGet, hGQ, Option.getD_some, pyTruthy]
        cases hqf : qf.isEmpty with
        | true => rfl
        | false =>
          simp only [Bool.not_false, Bool.true_eq_false, if_false, pyIn, hmiss]
      | null => simp at hmiss
      | bool b => simp at hmiss
      | num s2 => simp at hmiss
      | str s2 => simp at hmiss
      | arr xs => simp at hmiss
  unfold get_stock_price
  rw [if_neg hq, if_neg (by simp [hk])]
  simp only [hc, hsym, hbody]

/-- Witness for C7 (amended): a quote object whose price key is absent. -/
theorem c7_witness :
    get_stock_price "AAPL" (some "key") [] 0
      (.ok (Json.obj [("Global Quote",
        Json.obj [("09. change", Json.str "1.0")])])) =
      .ok (priceUnavailableMsg "AAPL", []) :=
  c7_missing_price_unavailable "AAPL" (some "key") [] 0 "AAPL"
    [("Global Quote", Json.obj [("09. change", Json.str "1.0")])]
    (by decide) (by rfl) (by rfl) (by rfl) (by rfl) (by rfl)

/-- C2: the claim says every outcome returns a string and never raises, but
the except clause of get_stock_price catches only Timeout, RequestException,
KeyError and ValueError. A malformed payload that decodes to a JSON array
passes the error-message membership test and then raises an uncaught
AttributeError at data.get("Global Quote", ...). The embedding evaluates the
code at that input to the escaping exception. -/
theorem c2_uncaught_attribute_error :
    get_stock_price "IBM" (some "key") [] 0 (.ok (Json.arr [])) =
      .error (.attributeError "\x27list\x27 object has no attribute \x27get\x27") := by
  rfl
